import Mathlib

/-!
Verification development for the tender acquisition-and-evaluation pipeline
(crw): a shallow embedding of the evaluation pipeline (scorer.py), the
orchestrator (main.py), the retry client (parser.py / parsers/base_parser.py),
the document acquisition naming logic (downloader.py) and the intake
submitter (uploader.py), together with theorems about the embedded code.

Python strings are embedded as lists of characters (Python indexes and
slices by character, not by byte), machine-level HTTP, file and OCR effects
are oracles passed in as parameters, and every model request is recorded in
an explicit trace so that theorems can speak about which calls were issued.
-/

/-- Characters of a string literal; Python string values are embedded as
lists of characters. -/
def pys (s : String) : List Char := s.data

/-- Lowering of one character, as Python str.lower does on the alphabets
that occur in this program (ASCII and the basic Cyrillic block, which cover
every configured keyword and every model token the code compares). -/
def pyLowerChar (c : Char) : Char :=
  if ('A' ≤ c ∧ c ≤ 'Z') ∨ ('А' ≤ c ∧ c ≤ 'Я') then Char.ofNat (c.toNat + 32)
  else if c = 'Ё' then 'ё'
  else c

/-- Python str.lower on an embedded string. -/
def pyLower (l : List Char) : List Char := l.map pyLowerChar

/-- Python str.strip: whitespace removed from both ends. -/
def pyStrip (l : List Char) : List Char :=
  ((l.dropWhile Char.isWhitespace).reverse.dropWhile Char.isWhitespace).reverse

/-- Python substring test needle in haystack. -/
def pyIn (needle haystack : List Char) : Bool :=
  decide (List.IsInfix needle haystack)

/-- Python x or default for an optional integer argument: None and 0 are
both falsy, so both select the configured default (scorer.py uses
threshold = threshold or config..., chunk_size = chunk_size or config...). -/
def pyOrNat (x : Option Nat) (dflt : Nat) : Nat :=
  match x with
  | none => dflt
  | some n => if n = 0 then dflt else n

/-- Python range(start, stop, step) for a positive step. -/
def pyRange (start stop step : Nat) : List Nat :=
  if _h : 0 < step ∧ start < stop then start :: pyRange (start + step) stop step
  else []
termination_by stop - start
decreasing_by omega

/-- config.document.chunk_size (config.py). -/
def chunk_size : Nat := 3000

/-- config.document.max_chunks (config.py). -/
def max_chunks : Nat := 5

/-- config.document.keyword_threshold (config.py). -/
def keyword_threshold : Nat := 2

/-- KEYWORDS (scorer.py): the configured domain keywords. -/
def KEYWORDS : List (List Char) :=
  [pys "электронный документооборот", pys "система электронного документооборота",
   pys "электронная цифровая подпись", pys "целостность документа",
   pys "подлинность документа", pys "удостоверяющий центр",
   pys "регистрационно-контрольная карточка", pys "согласование документа",
   pys "регистрация документов", pys "внутренние документы", pys "эцп", pys "сэд"]

/-- One outbound model request of the evaluation pipeline, recorded with the
text it carries: a summarization request (get_summary_from_model), a
classification request (final_request_to_model) or a translation request
(get_translate_of_summary). The classify and translate constructors never
occur in a trace because both functions raise NameError before issuing
their HTTP request (see final_request_to_model below). -/
inductive ModelCall where
  | summarize (text : List Char)
  | classify (text : List Char)
  | translate (text : List Char)
deriving DecidableEq

/-- Model-client state: a call counter and the trace of issued requests. -/
structure MState where
  ctr : Nat
  trace : List ModelCall
deriving DecidableEq

/-- Responses of the model endpoint, indexed by the call counter: .error is
a transport failure or unusable response body, .ok s is the extracted
response content. -/
def Oracle : Type := Nat → Except Unit (List Char)

/-- Record one issued model request and obtain its index. -/
def MState.tick (st : MState) (c : ModelCall) : Nat × MState :=
  (st.ctr, ⟨st.ctr + 1, st.trace ++ [c]⟩)

/-- request_to_model (scorer.py): title classification. The HTTP exchange is
the oracle argument (None embeds a failed request or raised exception, which
the function catches, returning неизвестно); the response text is stripped,
lowered, and matched for возможно then нет. -/
def request_to_model (resp : Option (List Char)) : List Char :=
  match resp with
  | none => pys "неизвестно"
  | some raw =>
    let raw_output := pyLower (pyStrip raw)
    if pyIn (pys "возможно") raw_output then pys "возможно"
    else if pyIn (pys "нет") raw_output then pys "нет"
    else pys "неизвестно"

/-- get_summary_from_model (scorer.py): issues one summarization request; a
failed request or malformed response is caught inside the function and
yields the empty summary, otherwise the stripped content is returned. The
function itself never raises. -/
def get_summary_from_model (o : Oracle) (text : List Char) (st : MState) :
    List Char × MState :=
  let (n, st1) := st.tick (ModelCall.summarize text)
  match o n with
  | Except.error _ => ([], st1)
  | Except.ok s => (pyStrip s, st1)

/-- final_request_to_model (scorer.py): builds the request body with the
module-global model_name, which scorer.py never defines or imports (only
config and configGS are imported from config), so every call raises
NameError before any HTTP request is issued: no classify call ever reaches
the model and no trace entry is recorded. -/
def final_request_to_model (_text : List Char) (st : MState) :
    Except Unit (List Char) × MState :=
  (Except.error (), st)

/-- get_translate_of_summary (scorer.py): same undefined model_name global
as final_request_to_model, so every call raises NameError before any HTTP
request is issued. -/
def get_translate_of_summary (_text : List Char) (st : MState) :
    Except Unit (List Char) × MState :=
  (Except.error (), st)

/-- _retry_model_request (scorer.py): up to max_retry attempts; a raised
exception is caught and retried, a falsy (empty) result is retried, a
truthy result is returned at once; exhaustion yields нет. -/
def retry_model_request (func : MState → Except Unit (List Char) × MState) :
    Nat → MState → List Char × MState
  | 0, st => (pys "нет", st)
  | Nat.succ k, st =>
    match func st with
    | (Except.ok r, st1) =>
      if r = [] then retry_model_request func k st1 else (r, st1)
    | (Except.error _, st1) => retry_model_request func k st1

/-- _normalize_decision (scorer.py): да exactly when the stripped, lowered
response starts with да. -/
def normalize_decision (response : List Char) : List Char :=
  let r := pyLower (pyStrip response)
  if (pys "да").isPrefixOf r then pys "да" else pys "нет"

/-- The keyword count of _has_enough_keywords (scorer.py): how many of the
configured keywords occur, case-insensitively, as substrings of the text. -/
def keywordCount (text : List Char) : Nat :=
  KEYWORDS.countP (fun keyword => pyIn (pyLower keyword) (pyLower text))

/-- _has_enough_keywords (scorer.py); the threshold argument defaults (via
Python or) to config.document.keyword_threshold. -/
def has_enough_keywords (text : List Char) (threshold : Option Nat) : Bool :=
  let t := pyOrNat threshold keyword_threshold
  decide (t ≤ keywordCount text)

/-- _process_short_text (scorer.py): the whole text is summarized by a
direct call to get_summary_from_model (no retry wrapper around it), and the
classification call is wrapped in retry_model_request. -/
def process_short_text (o : Oracle) (text : List Char) (st : MState) :
    (List Char × List Char) × MState :=
  let p1 := get_summary_from_model o text st
  let summary := p1.1
  let p2 := retry_model_request (fun s => final_request_to_model text s) 3 p1.2
  ((summary, normalize_decision p2.1), p2.2)

/-- One iteration of the chunk loop of _process_long_text (scorer.py): cut
the fixed-size slice at start, summarize it through the retry wrapper, and
append the summary. -/
def chunkStep (o : Oracle) (text : List Char) (cs : Nat)
    (acc : List (List Char) × MState) (start : Nat) :
    List (List Char) × MState :=
  let chunk := (text.drop start).take cs
  let p := retry_model_request
    (fun s =>
      let q := get_summary_from_model o chunk s
      (Except.ok q.1, q.2)) 3 acc.2
  (acc.1 ++ [p.1], p.2)

/-- _process_long_text (scorer.py): the text is cut at chunk boundaries
range(0, len(text), chunk_size), the loop breaks after max_chunks chunks,
each chunk is summarized through the retry wrapper (chunkStep), the joined
summaries are summarized again through the retry wrapper, and the
classification of that combined summary is wrapped in the retry wrapper as
well. -/
def process_long_text (o : Oracle) (text : List Char)
    (chunkSizeArg maxChunksArg : Option Nat) (st : MState) :
    (List Char × List Char) × MState :=
  let cs := pyOrNat chunkSizeArg chunk_size
  let mc := pyOrNat maxChunksArg max_chunks
  let starts := (pyRange 0 text.length cs).take mc
  let folded := starts.foldl (chunkStep o text cs) ([], st)
  let full_summary := List.intercalate (pys "\n") folded.1
  let p2 := retry_model_request
    (fun s =>
      let q := get_summary_from_model o full_summary s
      (Except.ok q.1, q.2)) 3 folded.2
  let p3 := retry_model_request (fun s => final_request_to_model p2.1 s) 3 p2.2
  ((full_summary, normalize_decision p3.1), p3.2)

/-- ModelResponse (scorer.py): plain dataclass carrying the decision and
summary (the unused confidence float default is omitted). -/
structure ModelResponse where
  decision : List Char
  summary : List Char
deriving DecidableEq

/-- Python subscription result2[key] on a ModelResponse: the dataclass
defines no getitem method, so every subscription raises TypeError, for
every key. -/
def ModelResponse.getItem (_r : ModelResponse) (_key : List Char) :
    Except Unit (List Char) :=
  Except.error ()

/-- The try-block of final_score (scorer.py). The doc_text argument is the
result of get_docx_or_pdf_content_by_announcement_id (file reading and OCR,
an external capability); None and the empty text are both falsy. An
Except.error result is an exception escaping the try-block (the only raise
point left is the translation call); it carries the model-client state at
the raise. -/
def final_score_body (o : Oracle) (doc_text : Option (List Char))
    (st : MState) : Except MState (ModelResponse × MState) :=
  let t := doc_text.getD []
  if t = [] then Except.ok (⟨pys "нет", []⟩, st)
  else if has_enough_keywords t none = false then
    Except.ok (⟨pys "нет", []⟩, st)
  else
    let p := if t.length ≤ chunk_size then process_short_text o t st
             else process_long_text o t none none st
    let summary := p.1.1
    let decision := p.1.2
    match get_translate_of_summary summary p.2 with
    | (Except.error _, st2) => Except.error st2
    | (Except.ok translated, st2) => Except.ok (⟨decision, translated⟩, st2)

/-- final_score (scorer.py): the try-block with its catch-all except, which
converts any escaped exception into ModelResponse(decision=нет, summary=empty). -/
def final_score (o : Oracle) (doc_text : Option (List Char)) (st : MState) :
    ModelResponse × MState :=
  match final_score_body o doc_text st with
  | Except.ok r => r
  | Except.error st1 => (⟨pys "нет", []⟩, st1)

/-- A Python dict with string keys embedded as an insertion-ordered
association list: assignment updates in place or appends. -/
def pyDictSet [DecidableEq α] (d : List (α × β)) (k : α) (v : β) :
    List (α × β) :=
  if (d.map Prod.fst).contains k then
    d.map (fun p => if p.1 = k then (k, v) else p)
  else d ++ [(k, v)]

/-- The announcement-info dict built by get_announcement_info
(downloader.py): a generic string-to-string dict, since the orchestrator
only stores it and sets its summary key. -/
def Info : Type := List (List Char × List Char)

instance : DecidableEq Info := by
  unfold Info
  infer_instance

/-- One whole-file checkpoint write issued through save_results_to_json
(file_utils.py), recorded with the configGS file it overwrites and the
snapshot written: filtered.json, stage1_success.json or
stage2_success.json. -/
inductive SaveEvent where
  | filtered (m : List (String × List Char))
  | stage1s (m : List (String × Bool))
  | stage2s (m : List (String × Info))
deriving DecidableEq

/-- ProcessingStats (main.py). -/
structure ProcessingStats where
  total_processed : Nat
  stage1_success : Nat
  stage2_success : Nat
  uploads_successful : Nat
  errors : Nat
deriving DecidableEq

/-- The mutable state of TenderProcessor (main.py), extended with the
observable effect traces: the checkpoint writes issued so far and how many
times the Intake Submitter (uploader.executor) was invoked. -/
structure PState where
  stats : ProcessingStats
  already_processed : List (String × List Char)
  stage1_success : List (String × Bool)
  stage2_success : List (String × Info)
  saves : List SaveEvent
  uploadCalls : Nat
  mstate : MState
deriving DecidableEq

/-- The external effects one announcement can trigger, as oracles:
the api/generate response for the title call (request_to_model), the result
of process_by_announcement_id (downloader.py, network and filesystem), the
document text later read by final_score, the model endpoint for the
deep-analysis calls, and the result of uploader.executor. -/
structure Env where
  titleResp : Option (List Char)
  downloadInfo : Option Info
  docText : Option (List Char)
  model : Oracle
  uploadResult : Option (List Char)

/-- The try-block of TenderProcessor.process_announcement (main.py),
line by line. An Except.error result is an exception escaping the
try-block, carrying the state at the raise; the only raise point is the
subscription result2[decision] of the ModelResponse dataclass returned by
final_score, which has no getitem and therefore raises TypeError. The code
after that subscription (lines 78-92 of main.py) is embedded faithfully
below it even though it is unreachable. -/
def process_announcement_body (env : Env) (announcement_id : String)
    (entryName : List Char) (st0 : PState) : Except PState PState :=
  let st1 := { st0 with stats := { st0.stats with
    total_processed := st0.stats.total_processed + 1 } }
  let ap := pyDictSet st1.already_processed announcement_id entryName
  let st2 := { st1 with
    already_processed := ap
    saves := st1.saves ++ [SaveEvent.filtered ap] }
  let result1 := request_to_model env.titleResp
  if result1 = pys "возможно" then
    let st3 := { st2 with
      stats := { st2.stats with stage1_success := st2.stats.stage1_success + 1 }
      stage1_success := pyDictSet st2.stage1_success announcement_id true }
    match env.downloadInfo with
    | none =>
      Except.ok { st3 with stats := { st3.stats with
        errors := st3.stats.errors + 1 } }
    | some info =>
      let fs := final_score env.model env.docText st3.mstate
      let result2 := fs.1
      let st4 := { st3 with mstate := fs.2 }
      match result2.getItem (pys "decision") with
      | Except.error _ => Except.error st4
      | Except.ok dec =>
        if dec = pys "да" then
          let st5 := { st4 with stats := { st4.stats with
            stage2_success := st4.stats.stage2_success + 1 } }
          match result2.getItem (pys "summary") with
          | Except.error _ => Except.error st5
          | Except.ok sm =>
            let info1 := pyDictSet info (pys "summary") sm
            let st6 := { st5 with
              stage2_success := pyDictSet st5.stage2_success announcement_id info1
              uploadCalls := st5.uploadCalls + 1 }
            match env.uploadResult with
            | some _ =>
              Except.ok { st6 with stats := { st6.stats with
                uploads_successful := st6.stats.uploads_successful + 1 } }
            | none =>
              Except.ok { st6 with stats := { st6.stats with
                errors := st6.stats.errors + 1 } }
        else Except.ok st4
  else Except.ok st2

/-- TenderProcessor.process_announcement (main.py): the try-block with its
catch-all except, which logs and increments the error counter. -/
def process_announcement (env : Env) (announcement_id : String)
    (entryName : List Char) (st : PState) : PState :=
  match process_announcement_body env announcement_id entryName st with
  | Except.ok s => s
  | Except.error s =>
    { s with stats := { s.stats with errors := s.stats.errors + 1 } }

/-- TenderProcessor.save_results (main.py): called once after the whole
processing loop, it writes the stage1, stage2 and filtered checkpoints. -/
def save_results (st : PState) : PState :=
  { st with saves := st.saves ++
      [SaveEvent.stage1s st.stage1_success,
       SaveEvent.stage2s st.stage2_success,
       SaveEvent.filtered st.already_processed] }

/-- Outcome of one HTTP GET as seen by WebScraper.request_with_retry
(parser.py) and BaseParser.request_with_retry (parsers/base_parser.py):
either a status code or a raised requests exception. -/
inductive HttpOutcome where
  | status (code : Nat)
  | exc
deriving DecidableEq

/-- The attempt loop of WebScraper.request_with_retry (parser.py), identical
in BaseParser.request_with_retry (parsers/base_parser.py): the remaining
attempt numbers are walked in order; a 200 returns at once, a 429 sleeps a
fixed 60 seconds, any other status sleeps the configured pause, an
exception sleeps the pause only when attempts remain. Sleeps are recorded
so the cooldown schedule is observable. -/
def requestLoop (o : Nat → HttpOutcome) (retries pause : Nat) :
    List Nat → Option Nat × List Nat
  | [] => (none, [])
  | attempt :: rest =>
    match o attempt with
    | HttpOutcome.status 200 => (some attempt, [])
    | HttpOutcome.status 429 =>
      let p := requestLoop o retries pause rest
      (p.1, 60 :: p.2)
    | HttpOutcome.status _ =>
      let p := requestLoop o retries pause rest
      (p.1, pause :: p.2)
    | HttpOutcome.exc =>
      if attempt < retries then
        let p := requestLoop o retries pause rest
        (p.1, pause :: p.2)
      else
        requestLoop o retries pause rest

/-- request_with_retry (parser.py): attempts 1..retries; the result is the
attempt number that returned 200 (None when every attempt was consumed),
paired with the list of sleeps performed. -/
def request_with_retry (o : Nat → HttpOutcome) (retries pause : Nat) :
    Option Nat × List Nat :=
  requestLoop o retries pause (List.range' 1 retries)

/-- A file name of the per-announcement folder as download_file
(downloader.py) generates them: category id, optional collision counter,
extension - the path f-strings category_id + ext and
category_id + underscore + counter + ext. -/
structure FName where
  cat : String
  suffix : Option Nat
  ext : String
deriving DecidableEq

/-- The while-loop of download_file (downloader.py, lines 249-252): the
collision counter grows until the candidate name is free. The source loop
terminates because the folder is finite; here it carries fuel
existing.length + 1, which chooseName_spec below proves is never
exhausted. -/
def chooseNameGo (existing : List FName) (cat ext : String) :
    Nat → Nat → FName
  | c, 0 => ⟨cat, some c, ext⟩
  | c, Nat.succ fuel =>
    if (⟨cat, some c, ext⟩ : FName) ∈ existing then
      chooseNameGo existing cat ext (c + 1) fuel
    else ⟨cat, some c, ext⟩

/-- The target-name computation of download_file (downloader.py, lines
248-252): start from category_id + ext and suffix a counter while the name
exists. -/
def chooseName (existing : List FName) (cat ext : String) : FName :=
  if (⟨cat, none, ext⟩ : FName) ∈ existing then
    chooseNameGo existing cat ext 1 (existing.length + 1)
  else ⟨cat, none, ext⟩

/-- Per-link outcome of the download loop body. -/
structure LinkResult where
  target : FName
  skipped : Nat
  errors : Nat
  downloaded : Nat
  newFolder : List FName
deriving DecidableEq

/-- The body of the per-link loop of download_file (downloader.py, lines
247-282) after the filename extension has been resolved from the HEAD
response: pick the target name with the collision loop, then the
if file_path.exists() skip branch (skipped counter), else pace and download
(dlOk embeds whether the GET and write succeed), incrementing the
downloaded or errors counter. -/
def handleLink (existing : List FName) (cat ext : String) (dlOk : Bool) :
    LinkResult :=
  let target := chooseName existing cat ext
  if target ∈ existing then ⟨target, 1, 0, 0, existing⟩
  else if dlOk then ⟨target, 0, 0, 1, existing ++ [target]⟩
  else ⟨target, 0, 1, 0, existing⟩

/-- The id handling and URL construction of process_by_announcement_id
(downloader.py, lines 302-305) and of the download_file call it makes
(lines 197 and 214): raw_id keeps the incoming id for the on-disk folder,
announcement_id is the incoming id with its last two characters removed
(Python slice [:-2]) and is used for the detail page URL and for the
file-listing URL of a category. -/
def process_by_announcement_id_urls (announcementId0 : String) :
    String × String × (String → String) :=
  let raw_id := announcementId0
  let announcement_id := announcementId0.dropRight 2
  ("https://goszakup.gov.kz/ru/announce/index/" ++ announcement_id
     ++ "?tab=documents",
   raw_id,
   fun category_id =>
     "https://goszakup.gov.kz/ru/announce/actionAjaxModalShowFiles/"
       ++ announcement_id ++ "/" ++ category_id)

/-- DocumentUploader._validate_input_data (uploader.py): required fields
must be truthy, the organizer id must satisfy bin.isdigit() with length 12,
and the checksum must be a 32-character digest; the first violated check
raises ValueError. Python str.isdigit consults the Unicode numeric-type
character table, external data here, so the embedding is parameterized by
the per-character digit test isdigit; bin.isdigit() itself is embedded
faithfully as: bin is nonempty and every character passes that test (so it
is false on the empty string). -/
def validate_input_data (isdigit : Char → Bool) (company_name bin message
    file md5sum _kratkij : String) : Except Unit Unit :=
  if ([company_name, bin, message, file, md5sum].all
      (fun s => !s.isEmpty)) = false then Except.error ()
  else if (!(bin.length != 0 && bin.all isdigit)
      || bin.length != 12) = true then Except.error ()
  else if file.isEmpty = true then Except.error ()
  else if (md5sum.isEmpty || md5sum.length != 32) = true then Except.error ()
  else Except.ok ()

/-- DocumentUploader.upload (uploader.py): validation failure is caught and
returns None before the payload is built; otherwise exactly one POST is
issued, whose parsed outcome (document id, or None for a request exception,
response-shape mismatch or auth failure) is the oracle argument. The result
pairs the returned document id with the number of network calls issued. -/
def upload (isdigit : Char → Bool) (net : Option String)
    (company_name bin message file md5sum kratkij : String) :
    Option String × Nat :=
  match validate_input_data isdigit company_name bin message file md5sum
      kratkij with
  | Except.error _ => (none, 0)
  | Except.ok _ => (net, 1)

/-- Every name the collision loop can return carries the category and
extension it was called with, and if the returned name is present in the
folder then so is every candidate the loop inspected. -/
theorem chooseNameGo_mem (existing : List FName) (cat ext : String) :
    ∀ fuel c, chooseNameGo existing cat ext c fuel ∈ existing →
      ∀ k ≤ fuel, (⟨cat, some (c + k), ext⟩ : FName) ∈ existing := by
  intro fuel
  induction fuel with
  | zero =>
    intro c h k hk
    have hk0 : k = 0 := Nat.le_zero.mp hk
    subst hk0
    simpa [chooseNameGo] using h
  | succ n ih =>
    intro c h k hk
    by_cases hmem : (⟨cat, some c, ext⟩ : FName) ∈ existing
    · rw [chooseNameGo, if_pos hmem] at h
      match k with
      | 0 => simpa using hmem
      | Nat.succ j =>
        have := ih (c + 1) h j (by omega)
        have harr : c + 1 + j = c + (j + 1) := by omega
        rwa [harr] at this
    · rw [chooseNameGo, if_neg hmem] at h
      exact absurd h hmem

/-- The collision loop of download_file always returns a name that is not
yet in the folder: the fuel existing.length + 1 suffices by pigeonhole,
since the candidate names are pairwise distinct. -/
theorem chooseName_not_mem (existing : List FName) (cat ext : String) :
    chooseName existing cat ext ∉ existing := by
  intro hmem
  unfold chooseName at hmem
  by_cases hbase : (⟨cat, none, ext⟩ : FName) ∈ existing
  · rw [if_pos hbase] at hmem
    have hall := chooseNameGo_mem existing cat ext (existing.length + 1) 1 hmem
    set cand : Nat → FName := fun k => ⟨cat, some (1 + k), ext⟩ with hcand
    have hsub : (List.range (existing.length + 2)).map cand ⊆ existing := by
      intro x hx
      rcases List.mem_map.mp hx with ⟨k, hk, rfl⟩
      have hk2 : k ≤ existing.length + 1 := by
        have := List.mem_range.mp hk
        omega
      exact hall k hk2
    have hnd : ((List.range (existing.length + 2)).map cand).Nodup := by
      refine (List.nodup_range _).map ?_
      intro a b hab
      simp only [hcand, FName.mk.injEq, Option.some.injEq] at hab
      omega
    have hle := (List.subperm_of_subset hnd hsub).length_le
    simp at hle
  · rw [if_neg hbase] at hmem
    exact absurd hmem hbase

/-- C8: the claim is refuted at a concrete input. With the folder already
containing 7.pdf, downloading a file of category 7 with extension .pdf does
not skip it: the skipped counter stays 0, the file is downloaded again
under the suffixed name 7_1.pdf, and the folder gains that second file.
The skip branch cannot fire because the preceding while-loop only stops at
a name that does not exist. -/
theorem c8_existing_file_counterexample :
    handleLink [⟨"7", none, ".pdf"⟩] "7" ".pdf" true
      = ⟨⟨"7", some 1, ".pdf"⟩, 0, 0, 1,
         [⟨"7", none, ".pdf"⟩, ⟨"7", some 1, ".pdf"⟩]⟩ := by
  decide

/-- C8 amended: when the target name already exists, download_file does not
treat the file as already downloaded; it picks a fresh suffixed name (never
one present in the folder), downloads the file again under that name when
the transfer succeeds, and the skipped counter is never incremented - the
skip branch after the collision loop is unreachable. -/
theorem c8_amended_no_skip (existing : List FName) (cat ext : String)
    (dlOk : Bool) :
    (handleLink existing cat ext dlOk).skipped = 0
    ∧ (handleLink existing cat ext dlOk).target ∉ existing
    ∧ (handleLink existing cat ext dlOk).downloaded
        = (if dlOk then 1 else 0) := by
  have hnm := chooseName_not_mem existing cat ext
  unfold handleLink
  rw [if_neg hnm]
  by_cases h : dlOk
  · subst h
    simp [hnm]
  · simp only [Bool.not_eq_true] at h
    subst h
    simp [hnm]

/-- C10: process_by_announcement_id unconditionally removes the last two
characters of the incoming id (Python slice [:-2]) before building the
detail-page URL and the file-listing URL, for every id, while the on-disk
folder is created under the full unmodified id; in particular an id that
carries no discriminator suffix, such as 12345678, still has its last two
characters removed for the URLs. -/
theorem c10_id_suffix_stripping (id0 : String) :
    (process_by_announcement_id_urls id0).1
        = "https://goszakup.gov.kz/ru/announce/index/"
            ++ id0.dropRight 2 ++ "?tab=documents"
    ∧ (process_by_announcement_id_urls id0).2.1 = id0
    ∧ (∀ cat, (process_by_announcement_id_urls id0).2.2 cat
        = "https://goszakup.gov.kz/ru/announce/actionAjaxModalShowFiles/"
            ++ id0.dropRight 2 ++ "/" ++ cat)
    ∧ (process_by_announcement_id_urls "12345678").1
        = "https://goszakup.gov.kz/ru/announce/index/123456?tab=documents" := by
  refine ⟨rfl, rfl, fun cat => rfl, ?_⟩
  decide

/-- The oracle of a fetch that is rate limited on the first attempt and
would succeed on the second. -/
def o429then200 : Nat → HttpOutcome :=
  fun attempt => if attempt = 1 then HttpOutcome.status 429
                 else HttpOutcome.status 200

/-- C7: the claim is refuted at a concrete input. With one configured
attempt, a fetch whose first response is 429 and whose next response would
be 200 fails (None) after the 60-second cooldown: the 429 consumed the
single attempt, so the cooldown-then-retry never happened; with two
configured attempts the same oracle succeeds on attempt 2. Hence a
429-then-success call does not succeed regardless of the configured
attempt count. -/
theorem c7_429_counterexample :
    request_with_retry o429then200 1 5 = (none, [60])
    ∧ request_with_retry o429then200 2 5 = (some 2, [60]) := by
  constructor <;> rfl

/-- C7 amended: a 429 response causes a fixed 60-second cooldown (instead
of the configured pause) before the next attempt, but it consumes the same
attempt budget as any other failure: a fetch that receives only 429
responses performs exactly retries attempts, sleeping 60 seconds after
each, and returns None; a 429 followed by a success succeeds only when the
attempt budget still has room (for example 429 then 200 within two
attempts). -/
theorem c7_amended_cooldown_consumes_budget :
    (∀ retries pause,
      request_with_retry (fun _ => HttpOutcome.status 429) retries pause
        = (none, List.replicate retries 60))
    ∧ (∀ pause, request_with_retry o429then200 2 pause = (some 2, [60])) := by
  constructor
  · intro retries pause
    have hloop : ∀ l : List Nat,
        requestLoop (fun _ => HttpOutcome.status 429) retries pause l
          = (none, List.replicate l.length 60) := by
      intro l
      induction l with
      | nil => rfl
      | cons a t ih => simp [requestLoop, ih, List.replicate_succ]
    rw [request_with_retry, hloop, List.length_range']
  · intro pause
    rfl

/-- C9: for every upload whose organizer id is not a string of exactly 12
digits, or with an empty required field, or whose checksum is not 32
characters, the Intake Submitter returns None and issues no network call:
validation raises ValueError before the payload is constructed, upload
catches it and returns None, and the POST count is zero. The statement
quantifies over every per-character digit test, so it holds in particular
for the Unicode one of Python str.isdigit: no commitment is made about
which characters count as digits. -/
theorem c9_upload_validation (isdigit : Char → Bool) (net : Option String)
    (company_name bin message file md5sum kratkij : String)
    (h : ¬ (bin.length = 12 ∧ bin.all isdigit = true)
       ∨ company_name = "" ∨ bin = "" ∨ message = ""
       ∨ file = "" ∨ md5sum = "" ∨ md5sum.length ≠ 32) :
    upload isdigit net company_name bin message file md5sum kratkij
      = (none, 0) := by
  suffices hv : validate_input_data isdigit company_name bin message file
      md5sum kratkij = Except.error () by
    rw [upload, hv]
  unfold validate_input_data
  by_cases hA : ([company_name, bin, message, file, md5sum].all
      (fun s => !s.isEmpty)) = false
  · rw [if_pos hA]
  · have hA1 : ([company_name, bin, message, file, md5sum].all
        (fun s => !s.isEmpty)) = true := by
      cases hx : ([company_name, bin, message, file, md5sum].all
        (fun s => !s.isEmpty))
      · exact absurd hx hA
      · rfl
    have hfields : company_name.isEmpty = false ∧ bin.isEmpty = false
        ∧ message.isEmpty = false ∧ file.isEmpty = false
        ∧ md5sum.isEmpty = false := by
      simpa [List.all_cons, and_assoc] using hA1
    rw [if_neg hA]
    by_cases hB : ((!(bin.length != 0 && bin.all isdigit)
        || bin.length != 12) = true)
    · rw [if_pos hB]
    · have hB1 : bin.length = 12 ∧ bin.all isdigit = true := by
        have hx : (!(bin.length != 0 && bin.all isdigit)
            || bin.length != 12) = false := by
          cases hy : (!(bin.length != 0 && bin.all isdigit)
              || bin.length != 12)
          · rfl
          · exact absurd hy hB
        simp only [Bool.or_eq_false_iff, Bool.not_eq_false',
          Bool.and_eq_true, bne_iff_ne, bne_eq_false_iff_eq, ne_eq] at hx
        exact ⟨hx.2, hx.1.2⟩
      rw [if_neg hB]
      have hC : ¬ (file.isEmpty = true) := by
        simp [hfields.2.2.2.1]
      rw [if_neg hC]
      have hD : (md5sum.isEmpty || md5sum.length != 32) = true := by
        have hlen : md5sum.length ≠ 32 := by
          rcases h with h | h | h | h | h | h | h
          · exact absurd hB1 h
          · exact absurd hfields.1 (by simp [h]; decide)
          · exact absurd hfields.2.1 (by simp [h]; decide)
          · exact absurd hfields.2.2.1 (by simp [h]; decide)
          · exact absurd hfields.2.2.2.1 (by simp [h]; decide)
          · exact absurd hfields.2.2.2.2 (by simp [h]; decide)
          · exact h
        simp [bne_iff_ne, hlen]
      rw [if_pos hD]

/-- C9 witness: an 11-digit organizer id with every other field valid is
rejected by the Intake Submitter without a network call; the violated
conjunct is the length, so the instantiation of the digit test (here the
ASCII one) plays no role in discharging the hypothesis. -/
theorem c9_upload_validation_witness :
    upload Char.isDigit (some "doc-1") "Comp" "12345678901" "msg" "ZmlsZQ=="
      "0123456789abcdef0123456789abcdef" "analysis" = (none, 0) :=
  c9_upload_validation Char.isDigit (some "doc-1") "Comp" "12345678901"
    "msg" "ZmlsZQ==" "0123456789abcdef0123456789abcdef" "analysis"
    (Or.inl (by decide))

/-- C3: when fewer than the configured threshold of the configured keywords
occur case-insensitively in the document text, final_score returns the
rejection ModelResponse with decision нет and empty summary, and the
model-client state is returned untouched: no summarization, classification
or translation request is issued for that announcement. -/
theorem c3_keyword_gate (o : Oracle) (text : List Char) (st : MState)
    (h : keywordCount text < keyword_threshold) :
    final_score o (some text) st = (⟨pys "нет", []⟩, st) := by
  have hk : has_enough_keywords text none = false := by
    simp only [has_enough_keywords, pyOrNat, decide_eq_false_iff_not]
    omega
  unfold final_score final_score_body
  by_cases ht : text = []
  · simp [ht]
  · simp only [Option.getD_some]
    rw [if_neg ht, if_pos hk]

/-- C3 witness: a text containing none of the configured keywords is
rejected with an empty summary and an unchanged model-call trace. -/
theorem c3_keyword_gate_witness :
    keywordCount (pys "бумага") < keyword_threshold
    ∧ final_score (fun _ => Except.ok (pys "да")) (some (pys "бумага"))
        ⟨0, []⟩ = (⟨pys "нет", []⟩, ⟨0, []⟩) :=
  ⟨by decide, c3_keyword_gate (fun _ => Except.ok (pys "да")) (pys "бумага")
      ⟨0, []⟩ (by decide)⟩

deriving instance DecidableEq for Except

/-- C6 amended: a failed translation call does not escape final_score: the
try-block raises (get_translate_of_summary always raises NameError, since
scorer.py never defines model_name), the catch-all except of final_score
swallows the exception, and the caller receives the value
ModelResponse(decision=нет, summary=empty) instead of the exception. -/
theorem c6_translation_failure_caught (o : Oracle)
    (doc_text : Option (List Char)) (st st1 : MState)
    (h : final_score_body o doc_text st = Except.error st1) :
    final_score o doc_text st = (⟨pys "нет", []⟩, st1) := by
  unfold final_score
  rw [h]

/-- C6 witness: on a document that passes the keyword gate, the try-block
of final_score raises at the translation call and final_score returns the
rejection value carrying the state of that raise. -/
theorem c6_translation_failure_caught_witness :
    final_score_body (fun _ => Except.error ()) (some (pys "эцп и сэд"))
        ⟨0, []⟩ = Except.error ⟨1, [ModelCall.summarize (pys "эцп и сэд")]⟩
    ∧ final_score (fun _ => Except.error ()) (some (pys "эцп и сэд"))
        ⟨0, []⟩ = (⟨pys "нет", []⟩,
          ⟨1, [ModelCall.summarize (pys "эцп и сэд")]⟩) :=
  ⟨by decide,
   c6_translation_failure_caught (fun _ => Except.error ())
     (some (pys "эцп и сэд")) ⟨0, []⟩
     ⟨1, [ModelCall.summarize (pys "эцп и сэд")]⟩ (by decide)⟩

/-- C6: the claim is refuted at a concrete input. On a document passing the
keyword gate, with a model endpoint that answers every request (so the
summarization succeeds with content), the translation call still fails (its
NameError raise is the Except.error of the try-block), and final_score does
not propagate it to the caller: it returns the converted result value
ModelResponse(decision=нет, summary=empty). -/
theorem c6_translation_counterexample :
    final_score_body (fun _ => Except.ok (pys "резюме")) (some (pys "сэд эцп"))
        ⟨0, []⟩ = Except.error ⟨1, [ModelCall.summarize (pys "сэд эцп")]⟩
    ∧ final_score (fun _ => Except.ok (pys "резюме")) (some (pys "сэд эцп"))
        ⟨0, []⟩ = (⟨pys "нет", []⟩,
          ⟨1, [ModelCall.summarize (pys "сэд эцп")]⟩) := by
  constructor
  · decide
  · decide

/-- The model oracle whose every response is empty (a falsy response, which
the retry wrapper treats as retryable). -/
def oEmpty : Oracle := fun _ => Except.ok []

/-- The classification retry always exhausts: final_request_to_model raises
NameError on every attempt, so the wrapper returns нет and the state is
untouched. -/
theorem retry_classify_nameerror (t : List Char) :
    ∀ (k : Nat) (st : MState),
      retry_model_request (fun s => final_request_to_model t s) k st
        = (pys "нет", st) := by
  intro k
  induction k with
  | zero => intro st; rfl
  | succ n ih =>
    intro st
    exact ih st

/-- A summarization retry against the all-empty oracle performs exactly
three summarize requests for its text and then returns the нет default. -/
theorem retry_empty_summary (chunk : List Char) (st : MState) :
    retry_model_request
      (fun s =>
        let q := get_summary_from_model oEmpty chunk s
        (Except.ok q.1, q.2)) 3 st
      = (pys "нет",
         ⟨st.ctr + 3, st.trace ++ List.replicate 3 (ModelCall.summarize chunk)⟩) := by
  show (pys "нет",
      (⟨st.ctr + 1 + 1 + 1,
        st.trace ++ [ModelCall.summarize chunk] ++ [ModelCall.summarize chunk]
          ++ [ModelCall.summarize chunk]⟩ : MState)) = _
  have h1 : st.ctr + 1 + 1 + 1 = st.ctr + 3 := by omega
  have h2 : st.trace ++ [ModelCall.summarize chunk]
      ++ [ModelCall.summarize chunk] ++ [ModelCall.summarize chunk]
      = st.trace ++ List.replicate 3 (ModelCall.summarize chunk) := by
    simp [List.append_assoc, List.replicate]
  rw [h1, h2]

/-- Against the all-empty oracle, the chunk loop of _process_long_text
retries every chunk three times: each start produces three summarize
requests for the same slice and the default summary нет. -/
theorem chunkStep_empty (text : List Char) (cs : Nat)
    (acc : List (List Char)) (st : MState) (a : Nat) :
    chunkStep oEmpty text cs (acc, st) a
      = (acc ++ [pys "нет"],
         ⟨st.ctr + 3, st.trace ++ List.replicate 3
           (ModelCall.summarize ((text.drop a).take cs))⟩) := by
  simp only [chunkStep]
  rw [retry_empty_summary]

theorem foldl_chunks_empty (text : List Char) (cs : Nat) :
    ∀ (starts : List Nat) (acc : List (List Char)) (st : MState),
      starts.foldl (chunkStep oEmpty text cs) (acc, st)
      = (acc ++ List.replicate starts.length (pys "нет"),
         ⟨st.ctr + 3 * starts.length,
          st.trace ++ starts.flatMap
            (fun start => List.replicate 3
              (ModelCall.summarize ((text.drop start).take cs)))⟩) := by
  intro starts
  induction starts with
  | nil => intro acc st; simp
  | cons a t ih =>
    intro acc st
    rw [List.foldl_cons, chunkStep_empty, ih]
    simp only [Prod.mk.injEq, MState.mk.injEq, List.length_cons,
      List.flatMap_cons]
    refine ⟨?_, by omega, by simp [List.append_assoc]⟩
    simp [List.append_assoc, List.replicate_succ]

/-- C5: the claim is refuted at a concrete input. On the short path, with a
model endpoint that fails every request (an outcome the retry wrapper
counts as retryable), the whole run of final_score issues exactly one
summarization request: the short-path summarization call
get_summary_from_model(doc_text) is made directly, outside
_retry_model_request, so its empty outcome is never retried; under the
claim the trace would show three attempts. -/
theorem c5_short_summarization_counterexample :
    (final_score (fun _ => Except.error ()) (some (pys "эцп, сэд"))
        ⟨0, []⟩).2.trace = [ModelCall.summarize (pys "эцп, сэд")]
    ∧ (final_score (fun _ => Except.error ()) (some (pys "эцп, сэд"))
        ⟨0, []⟩).1 = ⟨pys "нет", []⟩ := by
  constructor
  · decide
  · decide

/-- C5 amended: the chunk summarizations, the combined summarization and
the classification calls go through _retry_model_request (bounded attempts,
an exception or empty response is retried, exhaustion yields the safe
default нет), but the short-path summarization does not: it is invoked
directly, relying only on the internal catch of get_summary_from_model.
Concretely: (1) the wrapper returns нет whenever every attempt raises or
comes back empty; (2) against the all-empty oracle the short path issues
exactly one summarize request for its text; (3) against the all-empty
oracle the long path issues exactly three summarize requests per chunk and
three for the combined summary. -/
theorem c5_amended_retry_coverage :
    (∀ (func : MState → Except Unit (List Char) × MState) (k : Nat)
       (st : MState),
       (∀ s, (func s).1 = Except.error () ∨ (func s).1 = Except.ok []) →
       (retry_model_request func k st).1 = pys "нет")
    ∧ (∀ (text : List Char) (st : MState),
        process_short_text oEmpty text st
          = (([], pys "нет"),
             ⟨st.ctr + 1, st.trace ++ [ModelCall.summarize text]⟩))
    ∧ (∀ (text : List Char) (st : MState),
        process_long_text oEmpty text none none st
          = ((List.intercalate (pys "\n")
                (List.replicate
                  ((pyRange 0 text.length chunk_size).take max_chunks).length
                  (pys "нет")), pys "нет"),
             ⟨st.ctr + 3 * ((pyRange 0 text.length chunk_size).take
                  max_chunks).length + 3,
              st.trace
                ++ ((pyRange 0 text.length chunk_size).take
                      max_chunks).flatMap
                    (fun start => List.replicate 3
                      (ModelCall.summarize ((text.drop start).take chunk_size)))
                ++ List.replicate 3 (ModelCall.summarize
                    (List.intercalate (pys "\n")
                      (List.replicate
                        ((pyRange 0 text.length chunk_size).take
                          max_chunks).length (pys "нет"))))⟩)) := by
  refine ⟨?_, ?_, ?_⟩
  · intro func k
    induction k with
    | zero => intro st hbad; rfl
    | succ n ih =>
      intro st hbad
      rcases hfs : func st with ⟨r, st1⟩
      rw [retry_model_request, hfs]
      rcases hbad st with hb | hb <;> rw [hfs] at hb <;>
        simp only at hb <;> subst hb
      · exact ih st1 hbad
      · simp only [if_pos rfl]
        exact ih st1 hbad
  · intro text st
    rfl
  · intro text st
    have hnet : normalize_decision (pys "нет") = pys "нет" := by decide
    have hfold := foldl_chunks_empty text chunk_size
        ((pyRange 0 text.length chunk_size).take max_chunks) [] st
    simp only [process_long_text, pyOrNat, hfold, List.nil_append,
      retry_empty_summary, retry_classify_nameerror, hnet]

/-- C5 witness: the retry contract and the single-call short path at
concrete inputs: three always-failing classification attempts yield нет,
and the short path against the all-empty oracle issues exactly one
summarize request. -/
theorem c5_amended_retry_coverage_witness :
    (retry_model_request (fun s => final_request_to_model (pys "т") s) 3
        ⟨0, []⟩).1 = pys "нет"
    ∧ process_short_text oEmpty (pys "т") ⟨0, []⟩
        = (([], pys "нет"), ⟨1, [ModelCall.summarize (pys "т")]⟩) :=
  ⟨c5_amended_retry_coverage.1 (fun s => final_request_to_model (pys "т") s) 3
      ⟨0, []⟩ (fun _ => Or.inl rfl),
   c5_amended_retry_coverage.2.1 (pys "т") ⟨0, []⟩⟩

/-- A concrete enriched announcement-info dict of the shape
get_announcement_info (downloader.py) returns. -/
def infoEx : Info := [(pys "announcement_id", pys "123"), (pys "name", pys "Тендер")]

/-- The orchestrator state at the start of a run with empty checkpoints. -/
def pstate0 : PState := ⟨⟨0, 0, 0, 0, 0⟩, [], [], [], [], 0, ⟨0, []⟩⟩

/-- The environment of the end-to-end acceptance scenario: title classified
возможно, document acquisition succeeds, document text with two configured
keywords and length below chunk_size, a model endpoint answering да to
every request, and an upload endpoint that would return a document id. -/
def envC1 : Env :=
  ⟨some (pys "возможно"), some infoEx, some (pys "эцп и сэд для госоргана"),
   fun _ => Except.ok (pys "да"), some (pys "9")⟩

/-- C1: the end-to-end acceptance scenario does not produce a stage2
checkpoint entry or an upload. All scenario conditions hold (title response
возможно, acquisition succeeded, two configured keywords in a text of
length at most chunk_size, the model endpoint answers да, and да
normalizes to the accepting decision), the announcement passes stage 1,
yet the run ends with an empty stage2-success map, zero Intake Submitter
calls and one counted error: final_request_to_model and
get_translate_of_summary raise NameError (scorer.py never defines
model_name), so final_score returns decision нет, and main.py line 75
subscripts the ModelResponse dataclass, raising TypeError, which the
catch-all except converts into a generic error. -/
theorem c1_stage2_upload_code_bug :
    request_to_model envC1.titleResp = pys "возможно"
    ∧ envC1.downloadInfo = some infoEx
    ∧ keyword_threshold ≤ keywordCount (pys "эцп и сэд для госоргана")
    ∧ (pys "эцп и сэд для госоргана").length ≤ chunk_size
    ∧ envC1.model 1 = Except.ok (pys "да")
    ∧ normalize_decision (pys "да") = pys "да"
    ∧ (process_announcement envC1 "123" (pys "Сопровождение СЭД")
        pstate0).stats.stage1_success = 1
    ∧ (process_announcement envC1 "123" (pys "Сопровождение СЭД")
        pstate0).stage2_success = []
    ∧ (process_announcement envC1 "123" (pys "Сопровождение СЭД")
        pstate0).uploadCalls = 0
    ∧ (process_announcement envC1 "123" (pys "Сопровождение СЭД")
        pstate0).stats.errors = 1 := by
  refine ⟨by decide, rfl, by decide, by decide, rfl, by decide,
    by decide, by decide, by decide, by decide⟩

/-- In every branch of process_announcement the only checkpoint write is
the filtered write performed at the top, before evaluation: no branch
writes the stage1 or stage2 checkpoint file. -/
theorem process_announcement_saves_eq (env : Env) (id : String)
    (name : List Char) (st : PState) :
    (process_announcement env id name st).saves
      = st.saves ++ [SaveEvent.filtered
          (pyDictSet st.already_processed id name)] := by
  by_cases h1 : request_to_model env.titleResp = pys "возможно"
  · cases hd : env.downloadInfo with
    | none =>
      simp [process_announcement, process_announcement_body, h1, hd]
    | some info =>
      simp [process_announcement, process_announcement_body, h1, hd,
        ModelResponse.getItem]
  · simp [process_announcement, process_announcement_body, h1]

/-- The environment of a stage1-passing announcement, used to exhibit the
checkpoint write schedule. -/
def envC2 : Env :=
  ⟨some (pys "возможно"), some infoEx, some (pys "внедрение эцп и сэд"),
   fun _ => Except.ok (pys "да"), some (pys "7")⟩

/-- C2: the claim is refuted at a concrete input. Announcement 124
completes the stage1 transition (its entry is added to the stage1-success
map), but the only checkpoint file written during its processing is
filtered.json: the stage1-success and stage2-success files are not
rewritten after the transition, so interrupting the run before its end
loses every stage1/stage2 entry of the run, not just the in-flight one. -/
theorem c2_checkpoint_write_counterexample :
    (process_announcement envC2 "124" (pys "Закупка услуг")
        pstate0).stage1_success = [("124", true)]
    ∧ (process_announcement envC2 "124" (pys "Закупка услуг")
        pstate0).saves
      = [SaveEvent.filtered [("124", pys "Закупка услуг")]] := by
  refine ⟨by decide, by decide⟩

/-- C2 amended: during the processing of one announcement only the filtered
(seen) checkpoint is rewritten - synchronously, at the top, before
evaluation; the stage1-success and stage2-success checkpoints live in
memory and are written only by save_results, which main invokes once after
the whole loop, so a killed process loses every stage1/stage2 entry of the
current run while losing at most the in-flight filtered entry. -/
theorem c2_amended_checkpoint_writes :
    (∀ (env : Env) (id : String) (name : List Char) (st : PState),
       (process_announcement env id name st).saves
         = st.saves ++ [SaveEvent.filtered
             (pyDictSet st.already_processed id name)])
    ∧ (∀ st : PState, (save_results st).saves
         = st.saves ++ [SaveEvent.stage1s st.stage1_success,
             SaveEvent.stage2s st.stage2_success,
             SaveEvent.filtered st.already_processed]) :=
  ⟨process_announcement_saves_eq, fun _ => rfl⟩

/-- Closed form of Python range(start, stop, step) for positive step: the
multiples of step shifted by start, one per ceiling-division slot. -/
theorem pyRange_eq (step : Nat) (hstep : 0 < step) :
    ∀ (d start stop : Nat), stop - start = d →
      pyRange start stop step
        = (List.range ((stop - start + step - 1) / step)).map
            (fun i => start + i * step) := by
  intro d
  induction d using Nat.strong_induction_on with
  | _ d ih =>
    intro start stop hd
    rw [pyRange]
    by_cases hlt : start < stop
    · rw [dif_pos ⟨hstep, hlt⟩]
      have hd2 : stop - (start + step) < d := by omega
      rw [ih _ hd2 (start + step) stop rfl]
      have hn : (stop - start + step - 1) / step
          = (stop - (start + step) + step - 1) / step + 1 := by
        by_cases hds : stop - start ≤ step
        · have h1 : stop - start + step - 1 = (stop - start - 1) + step := by
            omega
          have h2 : stop - (start + step) = 0 := by omega
          rw [h1, Nat.add_div_right _ hstep, h2]
          have h3 : (stop - start - 1) / step = 0 :=
            Nat.div_eq_of_lt (by omega)
          have h4 : (0 + step - 1) / step = 0 :=
            Nat.div_eq_of_lt (by omega)
          rw [h3, h4]
        · have h1 : stop - start + step - 1 = (stop - start - 1) + step := by
            omega
          have h2 : stop - start - 1 = stop - (start + step) + step - 1 := by
            omega
          rw [h1, Nat.add_div_right _ hstep, h2]
      rw [hn, List.range_succ_eq_map, List.map_cons, List.map_map]
      congr 1
      · simp
      · apply List.map_congr_left
        intro i _
        simp only [Function.comp_apply, Nat.succ_mul]
        omega
    · rw [dif_neg (fun h => hlt h.2)]
      have h0 : (stop - start + step - 1) / step = 0 := by
        have h1 : stop - start = 0 := by omega
        rw [h1]
        exact Nat.div_eq_of_lt (by omega)
      rw [h0]
      rfl

/-- The texts carried by the summarize requests of a trace, in order. -/
def summarizeArgs : List ModelCall → List (List Char)
  | [] => []
  | ModelCall.summarize t :: r => t :: summarizeArgs r
  | ModelCall.classify _ :: r => summarizeArgs r
  | ModelCall.translate _ :: r => summarizeArgs r

theorem summarizeArgs_append (a b : List ModelCall) :
    summarizeArgs (a ++ b) = summarizeArgs a ++ summarizeArgs b := by
  induction a with
  | nil => rfl
  | cons x t ih => cases x <;> simp [summarizeArgs, ih]

theorem summarizeArgs_map_summarize {α : Type} (g : α → List Char)
    (l : List α) :
    summarizeArgs (l.map (fun s => ModelCall.summarize (g s))) = l.map g := by
  induction l with
  | nil => rfl
  | cons x t ih => simp [summarizeArgs, ih]

/-- Against an oracle whose responses all strip to something nonempty, a
summarization retry succeeds on the first attempt: one summarize request,
returning the stripped response at the current counter. -/
theorem retry_good_summary (f : Nat → List Char) (chunk : List Char)
    (st : MState) (hf : pyStrip (f st.ctr) ≠ []) :
    retry_model_request
      (fun s =>
        let q := get_summary_from_model (fun n => Except.ok (f n)) chunk s
        (Except.ok q.1, q.2)) 3 st
      = (pyStrip (f st.ctr),
         ⟨st.ctr + 1, st.trace ++ [ModelCall.summarize chunk]⟩) := by
  simp only [retry_model_request, get_summary_from_model, MState.tick]
  rw [if_neg hf]

theorem chunkStep_good (f : Nat → List Char) (text : List Char) (cs : Nat)
    (acc : List (List Char)) (st : MState) (a : Nat)
    (hf : pyStrip (f st.ctr) ≠ []) :
    chunkStep (fun n => Except.ok (f n)) text cs (acc, st) a
      = (acc ++ [pyStrip (f st.ctr)],
         ⟨st.ctr + 1,
          st.trace ++ [ModelCall.summarize ((text.drop a).take cs)]⟩) := by
  simp only [chunkStep]
  rw [retry_good_summary f _ st hf]

/-- Against an all-good oracle the chunk loop performs exactly one
summarize request per start, for the fixed-size slice at that start, and
collects the stripped responses in order. -/
theorem foldl_chunks_good (f : Nat → List Char)
    (hf : ∀ n, pyStrip (f n) ≠ []) (text : List Char) (cs : Nat) :
    ∀ (starts : List Nat) (acc : List (List Char)) (st : MState),
      starts.foldl (chunkStep (fun n => Except.ok (f n)) text cs) (acc, st)
        = (acc ++ (List.range starts.length).map
              (fun i => pyStrip (f (st.ctr + i))),
           ⟨st.ctr + starts.length,
            st.trace ++ starts.map
              (fun start => ModelCall.summarize ((text.drop start).take cs))⟩) := by
  intro starts
  induction starts with
  | nil => intro acc st; simp
  | cons a t ih =>
    intro acc st
    rw [List.foldl_cons, chunkStep_good f text cs acc st a (hf st.ctr), ih]
    simp only [Prod.mk.injEq, MState.mk.injEq, List.length_cons,
      List.map_cons]
    refine ⟨?_, by omega, by simp [List.append_assoc]⟩
    rw [List.range_succ_eq_map, List.map_cons, List.map_map,
      List.append_assoc]
    simp only [Nat.add_zero, List.singleton_append]
    congr 1
    congr 1
    apply List.map_congr_left
    intro i _
    have harg : st.ctr + 1 + i = st.ctr + Nat.succ i := by omega
    simp [Function.comp_apply, harg]

/-- C4: on the long path, against a model endpoint whose summaries are
usable (nonempty after stripping), the chunk phase summarizes exactly
min(ceil(L / chunk_size), max_chunks) chunks, the i-th being the fixed
slice text[i * chunk_size : (i + 1) * chunk_size]; the only other
summarization request carries the combined summary (model output, not raw
text), and every summarized slice is unchanged when the text is truncated
at max_chunks * chunk_size characters: no character at or beyond that
position is ever passed to a summarization call. -/
theorem c4_long_path_chunking (f : Nat → List Char)
    (hf : ∀ n, pyStrip (f n) ≠ []) (text : List Char) (cs mc : Nat)
    (hcs : 0 < cs) (hmc : 0 < mc) (_hlen : cs < text.length) (st : MState) :
    ∃ combined : List Char,
      summarizeArgs (process_long_text (fun n => Except.ok (f n)) text
          (some cs) (some mc) st).2.trace
        = summarizeArgs st.trace
          ++ (List.range (min ((text.length + cs - 1) / cs) mc)).map
              (fun i => (text.drop (i * cs)).take cs)
          ++ [combined]
      ∧ ∀ i, i < min ((text.length + cs - 1) / cs) mc →
          (text.drop (i * cs)).take cs
            = ((text.take (mc * cs)).drop (i * cs)).take cs := by
  have hpy1 : pyOrNat (some cs) chunk_size = cs := by
    simp only [pyOrNat]
    rw [if_neg (by omega)]
  have hpy2 : pyOrNat (some mc) max_chunks = mc := by
    simp only [pyOrNat]
    rw [if_neg (by omega)]
  have hstarts : (pyRange 0 text.length cs).take mc
      = (List.range (min ((text.length + cs - 1) / cs) mc)).map
          (fun i => i * cs) := by
    rw [pyRange_eq cs hcs (text.length - 0) 0 text.length rfl]
    simp only [Nat.sub_zero, Nat.zero_add]
    rw [← List.map_take, List.take_range, Nat.min_comm]
  refine ⟨List.intercalate (pys "\n")
      ((List.range (min ((text.length + cs - 1) / cs) mc)).map
        (fun i => pyStrip (f (st.ctr + i)))), ?_, ?_⟩
  · simp only [process_long_text, hpy1, hpy2, hstarts,
      foldl_chunks_good f hf text cs, List.nil_append]
    simp only [retry_good_summary f, hf, ne_eq, not_false_iff]
    simp only [retry_classify_nameerror]
    simp only [List.length_map, List.length_range, List.map_map]
    rw [summarizeArgs_append, summarizeArgs_append]
    simp only [summarizeArgs]
    rw [← List.map_map]
    rw [summarizeArgs_map_summarize (fun start => (text.drop start).take cs)]
    simp only [List.map_map, Function.comp_def]
  · intro i hi
    have himc : i + 1 ≤ mc := by
      have := Nat.lt_of_lt_of_le hi (Nat.min_le_right _ _)
      omega
    have hkey : i * cs + cs ≤ mc * cs := by
      have h2 : (i + 1) * cs ≤ mc * cs := Nat.mul_le_mul_right cs himc
      rw [Nat.succ_mul] at h2
      exact h2
    have hle : cs ≤ mc * cs - i * cs :=
      Nat.le_sub_of_add_le (by rw [Nat.add_comm]; exact hkey)
    rw [List.drop_take, List.take_take, Nat.min_eq_left hle]

/-- C4 witness: the chunking property at a concrete five-character text
with chunk size 2 and chunk bound 2: the chunk phase summarizes exactly
min(ceil(5 / 2), 2) = 2 slices, ab and cd, the character e beyond
max_chunks * chunk_size = 4 is dropped, and each slice survives truncation
of the text at position 4. -/
theorem c4_long_path_chunking_witness :
    ∃ combined : List Char,
      summarizeArgs (process_long_text (fun _ => Except.ok (pys "с"))
          (pys "abcde") (some 2) (some 2) ⟨0, []⟩).2.trace
        = summarizeArgs (⟨0, []⟩ : MState).trace
          ++ (List.range (min (((pys "abcde").length + 2 - 1) / 2) 2)).map
              (fun i => ((pys "abcde").drop (i * 2)).take 2)
          ++ [combined]
      ∧ ∀ i, i < min (((pys "abcde").length + 2 - 1) / 2) 2 →
          ((pys "abcde").drop (i * 2)).take 2
            = (((pys "abcde").take (2 * 2)).drop (i * 2)).take 2 :=
  by
  have hstrip : pyStrip (pys "с") ≠ [] := by decide
  exact c4_long_path_chunking (fun _ => pys "с") (fun _ => hstrip)
    (pys "abcde") 2 2 (by decide) (by decide) (by decide) ⟨0, []⟩
